import Mathlib

/-!
Verification development for the aiflow-chat repository: a shallow embedding of
the mock completion backend (`src/tests/mock_ai_backend.py`, `src/mock_ai_backend.py`),
the MCP servers (`src/_mcp_servers/stack-mcp/stack-mcp.py`,
`src/_mcp_servers/filesystem_read-mcp/filesystem_read-mcp.py`), and — for the parts of
the application that live outside the Python sources — models built from the
specification (message store, tool-call interpreter, turn driver, flow graph and
flow scheduler).  Definitions come first, theorems afterwards.
-/

/-- Chat message as exchanged with the completion API: a role
(`user` / `assistant` / `tool`) and a text content. -/
structure Message where
  role : String
  content : String
deriving DecidableEq

/-- Auxiliary character-list version of Python's substring test `pat in s`:
true when `pat` occurs contiguously in the list. -/
def containsChars (pat : List Char) : List Char → Bool
  | [] => List.isPrefixOf pat []
  | c :: rest => List.isPrefixOf pat (c :: rest) || containsChars pat rest

/-- Python's `pat in s` on strings. -/
def containsStr (pat s : String) : Bool :=
  containsChars pat.data s.data

/-- The apostrophe character as a string (used to build string constants from the
sources without a bare apostrophe in a literal). -/
def apostrophe : String := String.singleton (Char.ofNat 39)

/-! ### Stack MCP server (`src/_mcp_servers/stack-mcp/stack-mcp.py`)

The global `stack` list is made explicit: each operation takes the stack and
returns the new stack together with the tool's textual return value. -/

/-- Embeds `add_to_stack`: `stack.append(prompt)` then report the new size. -/
def add_to_stack (stack : List String) (prompt : String) : List String × String :=
  let stack' := stack ++ [prompt]
  (stack', "Prompt added to stack. Current stack size: " ++ toString stack'.length)

/-- Embeds `pop_from_stack`: return `""` on the empty stack, else remove and
return the most recently pushed prompt. -/
def pop_from_stack (stack : List String) : List String × String :=
  match stack.getLast? with
  | none => (stack, "")
  | some p => (stack.dropLast, p)

/-! ### Filesystem-read MCP server (`src/_mcp_servers/filesystem_read-mcp/filesystem_read-mcp.py`) -/

/-- Operating-system collaborators used by `virtual_to_real_path`.
`realpath` returns `Except.error ()` where Python's `os.path.realpath` raises
`FileNotFoundError`; `normAbs` is `os.path.normpath (os.path.abspath ·)`. -/
structure OSModel where
  realpath : String → Except Unit String
  dirname : String → String
  pathExists : String → Bool
  normAbs : String → String

/-- Configured allowed real directories (`_allowed_real_dirs`), already made
absolute as `set_allowed_dirs` does with `os.path.abspath(os.path.expanduser(d))`. -/
structure FSConfig where
  allowed_real_dirs : List String
deriving DecidableEq

/-- Embeds the `_virtual_to_real` mapping built by `set_allowed_dirs`: the i-th
allowed directory is mapped from the virtual path `/` + `chr(97 + i)`. -/
def virtualDirs (cfg : FSConfig) : List (String × String) :=
  cfg.allowed_real_dirs.enum.map
    (fun p => ("/" ++ String.singleton (Char.ofNat (97 + p.1)), p.2))

/-- Error outcomes of `virtual_to_real_path` (Python exception classes). -/
inductive FSError where
  | isADirectory (msg : String)
  | custom (msg : String)
  | permission (msg : String)
  | fileNotFound (msg : String)
deriving DecidableEq

/-- Python's `s.startswith(pre)`, computed on the character lists. -/
def strStartsWith (s pre : String) : Bool := List.isPrefixOf pre.data s.data

/-- Python's `s.endswith(suf)`, computed on the character lists. -/
def strEndsWith (s suf : String) : Bool := List.isSuffixOf suf.data s.data

/-- Python's `s[n:]` (drop the first `n` characters). -/
def strDrop (s : String) (n : Nat) : String := ⟨s.data.drop n⟩

/-- Python's `s.lstrip("/")`. -/
def strDropSlashes (s : String) : String := ⟨s.data.dropWhile (· == '/')⟩

/-- Embeds `normalize_virtual_path`. -/
def normalize_virtual_path (vp0 : String) : String :=
  let vp := if vp0 == "" || vp0 == "." then "/" else vp0
  let vp := if strStartsWith vp "./" then strDrop vp 1 else vp
  if strStartsWith vp "/" then vp else "/" ++ vp

/-- Embeds `os.path.join(a, b)` for a second component that is not absolute
(as produced by `lstrip("/")` in the source). -/
def pathJoin (a b : String) : String :=
  if a == "" then b else if strEndsWith a "/" then a ++ b else a ++ "/" ++ b

/-- Embeds the containment test
`any(p.startswith(d + os.sep) or p == d for d in _allowed_real_dirs)`. -/
def inAllowedDirs (cfg : FSConfig) (p : String) : Bool :=
  cfg.allowed_real_dirs.any (fun d => strStartsWith p (d ++ "/") || p == d)

/-- Embeds the `try/except FileNotFoundError` tail of `virtual_to_real_path`:
resolve `real_path`, return it when the resolution lies inside an allowed
directory, and on a resolution failure fall back to checking the parent
directory's resolution. -/
def checkRealPath (os : OSModel) (cfg : FSConfig) (real_path : String) : Except FSError String :=
  match os.realpath real_path with
  | .ok resolved =>
    if inAllowedDirs cfg resolved then .ok resolved
    else .error (.permission "Access denied")
  | .error _ =>
    match os.realpath (os.dirname real_path) with
    | .error _ => .error (.fileNotFound "realpath failed")
    | .ok real_parent =>
      if os.pathExists real_parent = false then .error (.fileNotFound "Parent directory not found")
      else if inAllowedDirs cfg real_parent then .ok real_path
      else .error (.permission "Access denied")

/-- Embeds `virtual_to_real_path`: normalize, reject the virtual root, locate
the matching virtual directory, build the candidate real path, and confine it
via `checkRealPath`. -/
def virtual_to_real_path (os : OSModel) (cfg : FSConfig) (vp0 : String) : Except FSError String :=
  let vp := normalize_virtual_path vp0
  if vp == "/" then .error (.isADirectory "Root directory (R/O)")
  else
    match (virtualDirs cfg).find? (fun q => strStartsWith vp (q.1 ++ "/") || vp == q.1) with
    | none => .error (.custom ("Not a valid path (List / for valid paths): " ++ vp))
    | some q =>
      let relative := strDropSlashes (strDrop vp q.1.length)
      checkRealPath os cfg (os.normAbs (if relative == "" then q.2 else pathJoin q.2 relative))

/-- Concrete operating-system model used to exercise `virtual_to_real_path`. -/
def osEx : OSModel :=
  { realpath := fun s => Except.ok s
    dirname := fun _ => "/data"
    pathExists := fun _ => true
    normAbs := fun s => s }

/-- Concrete allowed-directory configuration used to exercise the server. -/
def cfgEx : FSConfig := { allowed_real_dirs := ["/data"] }

/-! ### Mock completion backend (`src/tests/mock_ai_backend.py`, `src/mock_ai_backend.py`) -/

/-- Body of a POST to `/v1/chat/completions`; only the `messages` list is
consulted by the handler (besides being echoed whole by `json.dumps`). -/
structure ChatRequest where
  messages : List Message
deriving DecidableEq

/-- Escape of one character inside a JSON string (the cases `json.dumps`
produces for the characters appearing here). -/
def jsonEscapeChar (c : Char) : String :=
  if c = '"' then "\\\"" else if c = '\\' then "\\\\"
  else if c = '\n' then "\\n" else String.singleton c

/-- Escape of a character list inside a JSON string. -/
def jsonEscape : List Char → String
  | [] => ""
  | c :: cs => jsonEscapeChar c ++ jsonEscape cs

/-- JSON rendering of a string (`json.dumps` on a `str`). -/
def jsonStr (s : String) : String := "\"" ++ jsonEscape s.data ++ "\""

/-- JSON rendering of one message object. -/
def dumpsMessage (m : Message) : String :=
  "\x7b\"role\": " ++ jsonStr m.role ++ ", \"content\": " ++ jsonStr m.content ++ "\x7d"

/-- JSON rendering of the request body (`json.dumps(request_body)`). -/
def dumpsRequest (r : ChatRequest) : String :=
  "\x7b\"messages\": [" ++ String.intercalate ", " (r.messages.map dumpsMessage) ++ "]\x7d"

/-- The user question that triggers the datetime tool call. -/
def askDateTimeText : String := "What" ++ apostrophe ++ "s the current date and time?"

/-- The user request that triggers a call to a non-existent tool. -/
def triggerErrorText : String := "Trigger a tool error."

/-- The tool-response opening the backend looks for in a `tool` message. -/
def toolRespGetDatetime : String := "<dma:tool_response name=\"get_datetime\""

/-- The JSON `text` field fragment the backend looks for in a `tool` message. -/
def textFieldMarker : String := "\"text\": \""

/-- Close of a successful tool response, as matched by the backend. -/
def contentCloseMarker : String := "</content>\n</dma:tool_response>"

/-- Close of an error tool response, as matched by the backend. -/
def errorCloseMarker : String := "</error>\n</dma:tool_response>"

/-- Assistant text calling the `get_datetime` tool. -/
def getDatetimeCallText : String := "<dma:tool_call name=\"get_datetime\"/>"

/-- Assistant text calling the non-existent tool. -/
def nonExistentCallText : String := "<dma:tool_call name=\"non_existent_tool\"/>"

/-- Final assistant answer after a successful datetime tool round-trip. -/
def finalAnswerText : String := "The current date and time has been provided by the tool."

/-- Embeds the `if`/`elif` chain of `MockAIHandler.do_POST` on the last message
(`src/tests/mock_ai_backend.py` lines 42-56): `some` is a special-cased
response, `none` falls through to the `json.dumps` echo. -/
def mockBranch (last : Message) : Option String :=
  if last.role == "user" && containsStr askDateTimeText last.content then
    some getDatetimeCallText
  else if last.role == "user" && containsStr triggerErrorText last.content then
    some nonExistentCallText
  else if last.role == "tool" && containsStr toolRespGetDatetime last.content
      && containsStr textFieldMarker last.content then
    some finalAnswerText
  else if last.role == "tool" && containsStr contentCloseMarker last.content then
    some "The last tool response was successful."
  else if last.role == "tool" && containsStr errorCloseMarker last.content then
    some "The last tool response was an error."
  else none

/-- The `response_text` computed by `do_POST` before the `max_len` truncation;
`none` models the `IndexError` of `request_body["messages"][-1]` on an empty
message list. -/
def mockResponseCore (body : ChatRequest) : Option String :=
  body.messages.getLast?.map
    (fun last => (mockBranch last).getD ("AI response to request: " ++ dumpsRequest body))

/-- Embeds the `max_len` truncation of the response text. -/
def applyMaxLen (maxLen : Option Nat) (t : String) : String :=
  match maxLen with
  | some m => if m < t.length then t.take m ++ "..." else t
  | none => t

/-- The full response text of the mock backend for one request. -/
def mockResponse (maxLen : Option Nat) (body : ChatRequest) : Option String :=
  (mockResponseCore body).map (applyMaxLen maxLen)

/-- Whether the last message matches one of the backend's special patterns. -/
def isSpecialLast (m : Message) : Bool := (mockBranch m).isSome

/-- JSON rendering of one streamed delta object,
`json.dumps({"choices": [{"delta": {"content": piece}}]})`. -/
def deltaJson (piece : String) : String :=
  "\x7b\"choices\": [\x7b\"delta\": \x7b\"content\": " ++ jsonStr piece ++ "\x7d\x7d]\x7d"

/-- One SSE data line as written by both backends: `data: <delta json>\n\n`. -/
def sseDataLine (piece : String) : String := "data: " ++ deltaJson piece ++ "\n\n"

/-- The terminating SSE sentinel line. -/
def sseDone : String := "data: [DONE]\n\n"

/-- The per-character chunking of `src/mock_ai_backend.py` (`for char in response_text`). -/
def streamChunks (text : String) : List String := text.data.map String.singleton

/-- The SSE line sequence written by `src/mock_ai_backend.py` for a response text. -/
def sseStream (text : String) : List String :=
  (streamChunks text).map sseDataLine ++ [sseDone]

/-- The SSE line sequence written by `src/tests/mock_ai_backend.py`, which sends
the whole response text as a single fragment. -/
def sseStreamSingle (text : String) : List String := [sseDataLine text, sseDone]

/-- Concatenation of a list of strings (client-side coalescing of fragments). -/
def strConcat (l : List String) : String := String.mk (l.map String.data).flatten

/-! ### Tool-Call Interpreter

Modelled from the spec: the Tool-Call Interpreter of §4.2 together with the
tool-invocation marker shape of §6 (`<dma:tool_call name="TOOLNAME" .../>`) and
the tool-result marker shape of §6; this component is part of the browser
application, which is not among the Python sources. -/

/-- Opening of a tool-invocation marker up to the name. -/
def toolCallOpen : String := "<dma:tool_call name=\""

/-- Characters of a tool name up to the closing quote; `none` when the quote is
missing (ill-formed marker). -/
def nameEnd : List Char → Option (List Char)
  | [] => none
  | c :: cs => if c = '"' then some [] else (nameEnd cs).map (fun l => c :: l)

/-- Scan for the first well-formed tool-invocation marker and return its tool name. -/
def findToolCallAux : List Char → Option String
  | [] => none
  | c :: rest =>
    if List.isPrefixOf toolCallOpen.data (c :: rest) then
      (nameEnd (List.drop toolCallOpen.data.length (c :: rest))).map String.mk
    else findToolCallAux rest

/-- Modelled from the spec: step 1 of §4.2 — the first well-formed
tool-invocation marker's tool name in an assistant text, if any. -/
def findFirstToolCall (s : String) : Option String := findToolCallAux s.data

/-- Modelled from the spec: agent tool configuration of §6 — a boolean
"allow all tools" flag or an explicit set of enabled tool names. -/
structure AgentToolConfig where
  allowAll : Bool
  enabled : List String
deriving DecidableEq

/-- Whether a tool name is in the agent's enabled set. -/
def isEnabled (cfg : AgentToolConfig) (name : String) : Bool :=
  cfg.allowAll || cfg.enabled.contains name

/-- Tool Result of §3: tool name, success flag, payload. -/
structure ToolResult where
  toolName : String
  success : Bool
  payload : String
deriving DecidableEq

/-- Outcome of the Tool-Call Interpreter on one assistant turn. -/
inductive ToolOutcome where
  | noToolCall
  | result (r : ToolResult)
deriving DecidableEq

/-- The exact not-enabled error payload of §4.2 step 2. -/
def notEnabledMsg (name : String) : String :=
  "Tool \"" ++ name ++ "\" is not enabled."

/-- Modelled from the spec: the Tool-Call Interpreter algorithm of §4.2 (the
marker's inline arguments are not consulted by any claim and are omitted).  The
second component counts dispatches to the MCP collaborator. -/
def interpret (dispatch : String → Except String String) (cfg : AgentToolConfig)
    (text : String) : ToolOutcome × Nat :=
  match findFirstToolCall text with
  | none => (.noToolCall, 0)
  | some name =>
    if isEnabled cfg name then
      match dispatch name with
      | .ok out => (.result ⟨name, true, out⟩, 1)
      | .error msg => (.result ⟨name, false, msg⟩, 1)
    else (.result ⟨name, false, notEnabledMsg name⟩, 0)

/-- Modelled from the spec: the tool-result marker of §6, with a `content`
child on success and an `error` child on failure. -/
def renderToolResult (r : ToolResult) : String :=
  ("<dma:tool_response name=\"" ++ r.toolName ++ "\">\n")
    ++ (if r.success then "<content>\n" ++ r.payload ++ "\n</content>\n"
        else "<error>\n" ++ r.payload ++ "\n</error>\n")
    ++ "</dma:tool_response>"

/-- Modelled from the spec: the Turn Driver loop of §4.3, bounded by a maximum
iteration count (`fuel`); each iteration appends the completion as an assistant
message, runs the interpreter, and on a tool call appends the rendered tool
message and repeats. -/
def turnDriver (complete : List Message → String) (dispatch : String → Except String String)
    (cfg : AgentToolConfig) : Nat → List Message → List Message
  | 0, log => log
  | fuel + 1, log =>
    let reply := complete log
    let log1 := log ++ [⟨"assistant", reply⟩]
    match interpret dispatch cfg reply with
    | (.noToolCall, _) => log1
    | (.result r, _) => turnDriver complete dispatch cfg fuel (log1 ++ [⟨"tool", renderToolResult r⟩])

/-- The completion collaborator instantiated with the mock backend's response
text (empty on an empty message list). -/
def mockComplete (log : List Message) : String :=
  (mockResponseCore ⟨log⟩).getD ""

/-- Modelled from the spec: the `get_datetime` MCP tool (its server is not
among the sources); it returns a JSON payload with a `"text"` field carrying
the current datetime string `dt`. -/
def get_datetime_payload (dt : String) : String :=
  "\x7b\"text\": " ++ jsonStr dt ++ "\x7d"

/-- MCP collaborator with only `get_datetime` available, answering with the
datetime string `dt`. -/
def dispatchDateTime (dt : String) : String → Except String String :=
  fun name => if name == "get_datetime" then .ok (get_datetime_payload dt)
              else .error ("No such tool: " ++ name)

/-- The initial user message of the tool-success scenario. -/
def userAskMsg : Message := ⟨"user", askDateTimeText⟩

/-- Agent configuration with every tool allowed. -/
def cfgAllowAll : AgentToolConfig := ⟨true, []⟩

/-- Agent configuration with an explicit allow-list not containing
`non_existent_tool`. -/
def cfgListEx : AgentToolConfig := ⟨false, ["get_datetime"]⟩

/-- An MCP collaborator that must never be reached. -/
def dispatchStub : String → Except String String := fun _ => .error "unreachable"

/-- The tool message produced by a successful `get_datetime` round-trip. -/
def toolSuccessMsg (dt : String) : Message :=
  ⟨"tool", renderToolResult ⟨"get_datetime", true, get_datetime_payload dt⟩⟩

/-! ### Message Store

Modelled from the spec: the Message Store of §3/§4.1 (part of the browser
application, not among the Python sources): each message owns an ordered list
of content alternatives and an active index. -/

/-- Message of the store: id, role, alternatives and the active index. -/
structure StoreMessage where
  id : Nat
  role : String
  alternatives : List String
  activeAlternativeIndex : Nat
deriving DecidableEq

/-- The §3 invariant: `activeAlternativeIndex` is a valid index into
`alternatives` (which therefore is nonempty). -/
def msgInvariant (m : StoreMessage) : Prop :=
  m.activeAlternativeIndex < m.alternatives.length

instance (m : StoreMessage) : Decidable (msgInvariant m) := by
  unfold msgInvariant; infer_instance

/-- A message's rendered content: `alternatives[activeAlternativeIndex]`. -/
def StoreMessage.renderedContent (m : StoreMessage) : String :=
  m.alternatives.getD m.activeAlternativeIndex ""

/-- Modelled from the spec: the per-message effect of `addAlternative` (§4.1) —
append the content to `alternatives` and make it the active alternative. -/
def addAlternativeMsg (m : StoreMessage) (content : String) : StoreMessage :=
  { m with alternatives := m.alternatives ++ [content],
           activeAlternativeIndex := m.alternatives.length }

/-- Modelled from the spec: `addAlternative` on the conversation log (§4.1) —
update the message at position `k` and truncate every message after it
(the superseded path); out-of-range positions leave the log unchanged. -/
def addAlternative (log : List StoreMessage) (k : Nat) (content : String) : List StoreMessage :=
  match log[k]? with
  | none => log
  | some m => log.take k ++ [addAlternativeMsg m content]

/-- The 1-based alternative counter exposed to the caller as `index/count`. -/
def altDisplay (m : StoreMessage) : String :=
  toString (m.activeAlternativeIndex + 1) ++ "/" ++ toString m.alternatives.length

/-! ### Flow Graph and Flow Scheduler

Modelled from the spec: the Flow Graph data model (§3, §4.4), its persistence
shape (§6), and the Flow Scheduler (§4.5); these live in the browser
application, which is not among the Python sources. -/

/-- Type-specific step configuration: the prompt of a `simple-prompt` step and
the threshold of a `token-count-branch` step. -/
structure StepData where
  prompt : String := ""
  tokenCount : Nat := 0
deriving DecidableEq

/-- Flow Step of §3 (persisted as `{ id, type, x, y, isMinimized, data }`). -/
structure FlowStep where
  id : String
  type : String
  x : Int
  y : Int
  isMinimized : Bool
  data : StepData
deriving DecidableEq

/-- Flow Connection of §3 (persisted as `{ from, to, outputName }`). -/
structure FlowConnection where
  fromStepId : String
  toStepId : String
  outputName : String
deriving DecidableEq

/-- Models the spec Flow of §3: id, name, steps and connections. -/
structure AppFlow where
  id : String
  name : String
  steps : List FlowStep
  connections : List FlowConnection
deriving DecidableEq

/-- The persistence shape of §6: `{ name, steps, connections }`. -/
structure FlowData where
  name : String
  steps : List FlowStep
  connections : List FlowConnection
deriving DecidableEq

/-- Serialization of a flow to the §6 persistence shape. -/
def serializeFlow (f : AppFlow) : FlowData :=
  ⟨f.name, f.steps, f.connections⟩

/-- Modelled from the spec: `addFlowFromData` (§4.4) — build a flow (under a
manager-chosen id) carrying the persisted `{name, steps, connections}` verbatim. -/
def addFlowFromData (id : String) (d : FlowData) : AppFlow :=
  ⟨id, d.name, d.steps, d.connections⟩

/-- Modelled from the spec: the named outputs each step type declares (§3):
a prompt step a single `default` output, a token-count-branch step exactly
`Over` and `Under`. -/
def declaredOutputs (t : String) : List String :=
  if t = "simple-prompt" then ["default"]
  else if t = "token-count-branch" then ["Over", "Under"]
  else []

/-- The step of a flow with the given id, if any. -/
def findStep (f : AppFlow) (sid : String) : Option FlowStep :=
  f.steps.find? (fun s => s.id == sid)

/-- AppFlow-graph mutation error of §4.4/§7. -/
inductive GraphError where
  | invalidConnection
deriving DecidableEq

/-- Modelled from the spec: `addConnection` (§4.4) — fails with
`InvalidConnection` when either endpoint does not exist or the output name is
not one of the source step type's declared outputs; on failure the graph is
left unchanged (no flow is produced). -/
def addConnection (f : AppFlow) (c : FlowConnection) : Except GraphError AppFlow :=
  match findStep f c.fromStepId, findStep f c.toStepId with
  | some src, some _ =>
    if (declaredOutputs src.type).contains c.outputName then
      .ok { f with connections := f.connections ++ [c] }
    else .error .invalidConnection
  | _, _ => .error .invalidConnection

/-- The start step of the loop test flow (`src/tests/test_07_loop_flow.py`). -/
def loopStepStart : FlowStep :=
  ⟨"start", "simple-prompt", 50, 0, false, { prompt := "Start" }⟩

/-- The iteration step of the loop test flow. -/
def loopStepIter : FlowStep :=
  ⟨"step-1", "simple-prompt", 50, 150, false, { prompt := "Iteration" }⟩

/-- The branch step of the loop test flow, with a high threshold. -/
def loopStepBranch : FlowStep :=
  ⟨"step-2", "token-count-branch", 50, 300, false, { tokenCount := 100000 }⟩

/-- The flow data loaded by `test_loop_flow` (`src/tests/test_07_loop_flow.py`
lines 8-21), verbatim — including the `"fail"` output name on the connection
looping from the branch step back to the iteration step. -/
def loopFlowData : FlowData :=
  ⟨"Loop Test AppFlow",
   [loopStepStart, loopStepIter, loopStepBranch],
   [⟨"start", "step-1", "default"⟩,
    ⟨"step-1", "step-2", "default"⟩,
    ⟨"step-2", "step-1", "fail"⟩]⟩

/-- Modelled from the spec: the looping-flow scenario of §8 — the same 3-step
cycle with the branch's `Under` output returning to the iteration step. -/
def specLoopFlow : AppFlow :=
  ⟨"flow-loop", "Loop Test AppFlow",
   [loopStepStart, loopStepIter, loopStepBranch],
   [⟨"start", "step-1", "default"⟩,
    ⟨"step-1", "step-2", "default"⟩,
    ⟨"step-2", "step-1", "Under"⟩]⟩

/-- Content of the most recent message of the log (empty when there is none). -/
def lastContent (log : List Message) : String :=
  (log.getLast?.map Message.content).getD ""

/-- Modelled from the spec: step execution by type (§4.5) — a `simple-prompt`
step appends its prompt as a `user` message and the Turn Driver's assistant
answer (the completion collaborator `complete`), selecting `default`; a
`token-count-branch` step appends nothing and selects `Over` or `Under` by
comparing the token count (`tok`) of the most recent message against its
threshold.  Returns the new log and the selected output name. -/
def execStep (tok : String → Nat) (complete : List Message → String)
    (step : FlowStep) (log : List Message) : List Message × String :=
  if step.type = "simple-prompt" then
    ((log ++ [⟨"user", step.data.prompt⟩])
       ++ [⟨"assistant", complete (log ++ [⟨"user", step.data.prompt⟩])⟩], "default")
  else if step.type = "token-count-branch" then
    (log, if step.data.tokenCount < tok (lastContent log) then "Over" else "Under")
  else (log, "default")

/-- The next step id: the first connection out of `cur` whose output name
matches the selected output (§4.5 transition rule). -/
def selectNext (flow : AppFlow) (cur : String) (out : String) : Option String :=
  (flow.connections.find? (fun c => c.fromStepId == cur && c.outputName == out)).map
    (fun c => c.toStepId)

/-- Terminal status of a flow run (§4.5 state machine). -/
inductive RunStatus where
  | completed
  | aborted (reason : String)
deriving DecidableEq

/-- Result of a flow run: terminal status, message log, and the scheduler's
step counter. -/
structure RunResult where
  status : RunStatus
  log : List Message
  steps : Nat

/-- Modelled from the spec: the Flow Scheduler walk (§4.5) from the current
step.  The loop guard is the recursion's termination measure: the steps-executed
counter increases at every step, and once it reaches the ceiling `limit` the
run transitions to `Aborted("loop limit exceeded")` instead of traversing
further. -/
def runFrom (tok : String → Nat) (complete : List Message → String) (flow : AppFlow)
    (limit : Nat) (cur : String) (log : List Message) (steps : Nat) : RunResult :=
  if _h : limit ≤ steps then ⟨.aborted "loop limit exceeded", log, steps⟩
  else
    match findStep flow cur with
    | none => ⟨.completed, log, steps + 1⟩
    | some step =>
      match selectNext flow cur (execStep tok complete step log).2 with
      | none => ⟨.completed, (execStep tok complete step log).1, steps + 1⟩
      | some nxt =>
        runFrom tok complete flow limit nxt (execStep tok complete step log).1 (steps + 1)
termination_by limit - steps
decreasing_by omega

/-- Concrete store message used to exercise the message store. -/
def msgEx : StoreMessage := ⟨0, "user", ["Hello, world!"], 0⟩

/-- Concrete request whose last message asks for the date and time. -/
def reqB1 : ChatRequest := ⟨[⟨"system", "You are helpful."⟩, userAskMsg]⟩

/-- Concrete request with a different history but the same last message. -/
def reqB2 : ChatRequest :=
  ⟨[⟨"user", "Earlier question."⟩, ⟨"assistant", "Earlier answer."⟩, userAskMsg]⟩

/-! ## Theorems -/

/-- Characterization of the substring test. -/
theorem containsChars_iff (pat l : List Char) : containsChars pat l = true ↔ pat <:+: l := by
  induction l with
  | nil =>
    simp [containsChars, List.isPrefixOf_iff_prefix]
  | cons c rest ih =>
    simp [containsChars, List.isPrefixOf_iff_prefix, List.infix_cons_iff, ih]

/-- Characterization of `containsStr` via list infixes. -/
theorem containsStr_iff (pat s : String) : containsStr pat s = true ↔ pat.data <:+: s.data :=
  containsChars_iff pat.data s.data

/-- Data of an appended string. -/
theorem data_append (a b : String) : (a ++ b).data = a.data ++ b.data :=
  String.data_append a b

/-- A substring of the right part is a substring of the append. -/
theorem containsStr_append_left (pat a b : String) (h : containsStr pat b = true) :
    containsStr pat (a ++ b) = true := by
  rw [containsStr_iff] at h ⊢
  rw [data_append]
  exact h.trans ⟨a.data, [], by simp⟩

/-- A substring of the left part is a substring of the append. -/
theorem containsStr_append_right (pat a b : String) (h : containsStr pat a = true) :
    containsStr pat (a ++ b) = true := by
  rw [containsStr_iff] at h ⊢
  rw [data_append]
  exact h.trans ⟨[], b.data, by simp⟩

/-- Every string contains itself. -/
theorem containsStr_self (pat : String) : containsStr pat pat = true := by
  rw [containsStr_iff]

/-- C9: the stack MCP server is a LIFO — `add_to_stack` appends the prompt and
reports the new size, an immediately following `pop_from_stack` returns exactly
that prompt and restores the previous stack, and popping the empty stack
returns the empty string and leaves the stack empty. -/
theorem c9_stack_lifo :
    (∀ (s : List String) (p : String),
        add_to_stack s p =
          (s ++ [p], "Prompt added to stack. Current stack size: " ++ toString (s.length + 1)) ∧
        pop_from_stack (add_to_stack s p).1 = (s, p)) ∧
    pop_from_stack [] = ([], "") := by
  refine ⟨fun s p => ⟨?_, ?_⟩, rfl⟩
  · simp [add_to_stack]
  · simp [add_to_stack, pop_from_stack]

/-- C6: the flow persistence round-trip is the identity — serializing the flow
built by `addFlowFromData` returns the data verbatim, and loading a serialized
flow under its own id reproduces the flow. -/
theorem c6_flow_roundtrip :
    (∀ (i : String) (d : FlowData), serializeFlow (addFlowFromData i d) = d) ∧
    (∀ f : AppFlow, addFlowFromData f.id (serializeFlow f) = f) :=
  ⟨fun _ _ => rfl, fun _ => rfl⟩

/-- C5: `addAlternative` truncates the log after the target message, adds
exactly one alternative, makes it the active (last) one, keeps the index
invariant, renders the new content, and exposes the 1-based counter `2/2`
after the second alternative is added. -/
theorem c5_addAlternative (log : List StoreMessage) (k : Nat) (m : StoreMessage) (content : String)
    (hk : log[k]? = some m) (_hinv : msgInvariant m) :
    addAlternative log k content = log.take k ++ [addAlternativeMsg m content] ∧
    (addAlternativeMsg m content).alternatives.length = m.alternatives.length + 1 ∧
    (addAlternativeMsg m content).activeAlternativeIndex + 1
      = (addAlternativeMsg m content).alternatives.length ∧
    msgInvariant (addAlternativeMsg m content) ∧
    (addAlternativeMsg m content).renderedContent = content ∧
    (m.alternatives.length = 1 → altDisplay (addAlternativeMsg m content) = "2/2") := by
  refine ⟨?_, ?_, ?_, ?_, ?_, ?_⟩
  · simp [addAlternative, hk]
  · simp [addAlternativeMsg]
  · simp [addAlternativeMsg]
  · simp [msgInvariant, addAlternativeMsg]
  · simp [StoreMessage.renderedContent, addAlternativeMsg, List.getD_eq_getElem?_getD,
      List.getElem?_concat_length]
  · intro h1
    simp [altDisplay, addAlternativeMsg, h1]
    rfl

/-- Witness for C5 at a concrete one-alternative user message. -/
theorem c5_addAlternative_witness :
    addAlternative [msgEx] 0 "Hi" = [msgEx].take 0 ++ [addAlternativeMsg msgEx "Hi"] ∧
    (addAlternativeMsg msgEx "Hi").alternatives.length = msgEx.alternatives.length + 1 ∧
    (addAlternativeMsg msgEx "Hi").activeAlternativeIndex + 1
      = (addAlternativeMsg msgEx "Hi").alternatives.length ∧
    msgInvariant (addAlternativeMsg msgEx "Hi") ∧
    (addAlternativeMsg msgEx "Hi").renderedContent = "Hi" ∧
    (msgEx.alternatives.length = 1 → altDisplay (addAlternativeMsg msgEx "Hi") = "2/2") :=
  c5_addAlternative [msgEx] 0 msgEx "Hi" (by decide) (by decide)

/-- C10: the mock backend's response depends only on the last request message
whenever that message matches one of the handled special patterns — two
requests with the same final message and the same `max_len` produce identical
response text regardless of earlier messages. -/
theorem c10_last_message_determines (b1 b2 : ChatRequest) (m : Message) (maxLen : Option Nat)
    (h1 : b1.messages.getLast? = some m) (h2 : b2.messages.getLast? = some m)
    (hs : isSpecialLast m = true) :
    mockResponse maxLen b1 = mockResponse maxLen b2 := by
  unfold isSpecialLast at hs
  obtain ⟨t, ht⟩ := Option.isSome_iff_exists.mp hs
  simp [mockResponse, mockResponseCore, h1, h2, ht]

/-- Witness for C10: two requests with different histories but the same
date-and-time question as last message get the same response. -/
theorem c10_witness : mockResponse (some 100) reqB1 = mockResponse (some 100) reqB2 :=
  c10_last_message_determines reqB1 reqB2 userAskMsg (some 100) (by rfl) (by rfl) (by decide)

/-- Flattening singleton lists restores the original list. -/
theorem flatten_singleton_map (l : List Char) : (l.map (fun c => [c])).flatten = l := by
  induction l with
  | nil => simp
  | cons c cs ih => simp [ih]

/-- C7: both mock backends stream the completion as SSE `data:` lines — the
stream is terminated by the `data: [DONE]` sentinel, every non-sentinel line is
a `data:` line carrying a delta whose content is a piece (substring) of the
response text, and concatenating the fragment contents restores the full
response text. -/
theorem c7_sse_stream (text : String) :
    (sseStream text).getLast? = some sseDone ∧
    (sseStreamSingle text).getLast? = some sseDone ∧
    strConcat (streamChunks text) = text ∧
    strConcat [text] = text ∧
    (∀ l ∈ sseStream text, l = sseDone ∨
        ∃ piece, piece.data <:+: text.data ∧ l = sseDataLine piece) ∧
    (∀ l ∈ sseStreamSingle text, l = sseDone ∨
        ∃ piece, piece.data <:+: text.data ∧ l = sseDataLine piece) := by
  refine ⟨?_, ?_, ?_, ?_, ?_, ?_⟩
  · simp [sseStream, List.getLast?_concat]
  · simp [sseStreamSingle, List.getLast?]
  · cases text with
    | mk l =>
      simp only [strConcat, streamChunks, List.map_map]
      rw [show (String.data ∘ String.singleton) = (fun c : Char => [c]) from rfl,
        flatten_singleton_map]
  · cases text with
    | mk l => simp [strConcat]
  · intro l hl
    simp only [sseStream, List.mem_append, List.mem_map, List.mem_singleton] at hl
    rcases hl with ⟨c, hc, rfl⟩ | rfl
    · refine Or.inr ⟨c, ?_, rfl⟩
      simp only [streamChunks, List.mem_map] at hc
      obtain ⟨ch, hch, rfl⟩ := hc
      obtain ⟨s, t, hst⟩ := List.append_of_mem hch
      refine ⟨s, t, ?_⟩
      rw [hst]
      simp
    · exact Or.inl rfl
  · intro l hl
    simp only [sseStreamSingle, List.mem_cons, List.not_mem_nil, or_false] at hl
    rcases hl with rfl | rfl
    · exact Or.inr ⟨text, List.infix_refl _, rfl⟩
    · exact Or.inl rfl

/-- C2: when the first well-formed tool-invocation marker of an assistant turn
names a tool outside the enabled set, the interpreter performs no dispatch
(dispatch count 0) and produces the error Tool Result with the exact payload
`Tool "<name>" is not enabled.`, and the rendered tool-role message contains
that payload. -/
theorem c2_tool_not_enabled (dispatch : String → Except String String) (cfg : AgentToolConfig)
    (text name : String) (hfind : findFirstToolCall text = some name)
    (hen : isEnabled cfg name = false) :
    interpret dispatch cfg text = (.result ⟨name, false, notEnabledMsg name⟩, 0) ∧
    containsStr (notEnabledMsg name)
      (renderToolResult ⟨name, false, notEnabledMsg name⟩) = true := by
  constructor
  · simp [interpret, hfind, hen]
  · have hshape : renderToolResult ⟨name, false, notEnabledMsg name⟩
        = ("<dma:tool_response name=\"" ++ name ++ "\">\n")
          ++ (("<error>\n" ++ notEnabledMsg name) ++ "\n</error>\n")
          ++ "</dma:tool_response>" := rfl
    rw [hshape]
    apply containsStr_append_right
    apply containsStr_append_left
    apply containsStr_append_right
    apply containsStr_append_left
    exact containsStr_self _

/-- Witness for C2 at the concrete marker calling `non_existent_tool` against
an allow-list that does not contain it. -/
theorem c2_tool_not_enabled_witness :
    interpret dispatchStub cfgListEx nonExistentCallText
      = (.result ⟨"non_existent_tool", false, notEnabledMsg "non_existent_tool"⟩, 0) ∧
    containsStr (notEnabledMsg "non_existent_tool")
      (renderToolResult ⟨"non_existent_tool", false, notEnabledMsg "non_existent_tool"⟩) = true :=
  c2_tool_not_enabled dispatchStub cfgListEx nonExistentCallText "non_existent_tool"
    (by decide) (by decide)

/-- Helper for C8: the postcondition of the confinement check `checkRealPath`. -/
theorem checkRealPath_confined (os : OSModel) (cfg : FSConfig) (rp r : String)
    (h : checkRealPath os cfg rp = .ok r) :
    inAllowedDirs cfg r = true ∨
    ((∃ u, os.realpath r = .error u) ∧
     ∃ p, os.realpath (os.dirname r) = .ok p ∧ os.pathExists p = true ∧
          inAllowedDirs cfg p = true) := by
  unfold checkRealPath at h
  split at h
  case _ resolved heq =>
    split at h
    case isTrue hallow =>
      obtain rfl : resolved = r := by simpa using h
      exact Or.inl hallow
    case isFalse => simp at h
  case _ u heq =>
    split at h
    · simp at h
    case _ real_parent heq2 =>
      split at h
      · simp at h
      case isFalse hex =>
        split at h
        case isTrue hallow =>
          obtain rfl : rp = r := by simpa using h
          refine Or.inr ⟨⟨u, heq⟩, real_parent, heq2, ?_, hallow⟩
          simpa using hex
        case isFalse => simp at h

/-- C8: whenever `virtual_to_real_path` returns a real path, either that path is
the (resolved) realpath and lies within an allowed directory, or the file did
not exist (`realpath` failed) and the realpath of its parent directory exists
and lies within an allowed directory; a path resolving outside every allowed
directory is rejected with an error instead. -/
theorem c8_virtual_path_confined (os : OSModel) (cfg : FSConfig) (vp r : String)
    (h : virtual_to_real_path os cfg vp = .ok r) :
    inAllowedDirs cfg r = true ∨
    ((∃ u, os.realpath r = .error u) ∧
     ∃ p, os.realpath (os.dirname r) = .ok p ∧ os.pathExists p = true ∧
          inAllowedDirs cfg p = true) := by
  simp only [virtual_to_real_path] at h
  split at h
  · simp at h
  · split at h
    · simp at h
    · exact checkRealPath_confined os cfg _ r h

/-- Witness for C8 at a concrete configuration and virtual path. -/
theorem c8_virtual_path_confined_witness :
    inAllowedDirs cfgEx "/data/notes.txt" = true ∨
    ((∃ u, osEx.realpath "/data/notes.txt" = .error u) ∧
     ∃ p, osEx.realpath (osEx.dirname "/data/notes.txt") = .ok p ∧
          osEx.pathExists p = true ∧ inAllowedDirs cfgEx p = true) :=
  c8_virtual_path_confined osEx cfgEx "/a/notes.txt" "/data/notes.txt" (by rfl)

/-- C3 counterexample: the flow loaded verbatim from the repository's own loop
test (`src/tests/test_07_loop_flow.py`) contains a connection whose source step
has type `token-count-branch` and whose output name is `"fail"`, which is not
one of the declared outputs `Over`/`Under` — so not every such connection in a
flow carries a declared output name. -/
theorem c3_counterexample :
    ((addFlowFromData "flow-loop" loopFlowData).connections.any (fun c =>
        ((findStep (addFlowFromData "flow-loop" loopFlowData) c.fromStepId).map FlowStep.type
            == some "token-count-branch")
          && !((declaredOutputs "token-count-branch").contains c.outputName))) = true := by
  decide

/-- C3 (amended): `addConnection` rejects, with `InvalidConnection` and without
producing any changed graph, every connection out of a `token-count-branch`
step whose output name is not among the declared outputs — but flows loaded via
`addFlowFromData` carry their connections verbatim and may contain such
undeclared output names. -/
theorem c3_branch_output_validated (f : AppFlow) (c : FlowConnection) (src : FlowStep)
    (hsrc : findStep f c.fromStepId = some src) (_ht : src.type = "token-count-branch")
    (hout : (declaredOutputs src.type).contains c.outputName = false) :
    addConnection f c = .error .invalidConnection := by
  unfold addConnection
  rw [hsrc]
  cases hto : findStep f c.toStepId with
  | none => rfl
  | some dst =>
    simp only [hout]
    rfl

/-- Witness for C3 (amended) at the loop-test flow and its `"fail"` connection. -/
theorem c3_branch_output_validated_witness :
    addConnection (addFlowFromData "flow-loop" loopFlowData) ⟨"step-2", "step-1", "fail"⟩
      = .error .invalidConnection :=
  c3_branch_output_validated (addFlowFromData "flow-loop" loopFlowData)
    ⟨"step-2", "step-1", "fail"⟩ loopStepBranch (by decide) (by decide) (by decide)

/-- Step lookup of the start step in the spec loop flow. -/
theorem findStep_specLoop_start : findStep specLoopFlow "start" = some loopStepStart := rfl

/-- Step lookup of the iteration step in the spec loop flow. -/
theorem findStep_specLoop_iter : findStep specLoopFlow "step-1" = some loopStepIter := rfl

/-- Step lookup of the branch step in the spec loop flow. -/
theorem findStep_specLoop_branch : findStep specLoopFlow "step-2" = some loopStepBranch := rfl

/-- Transition out of the start step. -/
theorem selectNext_specLoop_start : selectNext specLoopFlow "start" "default" = some "step-1" := rfl

/-- Transition out of the iteration step. -/
theorem selectNext_specLoop_iter : selectNext specLoopFlow "step-1" "default" = some "step-2" := rfl

/-- Transition out of the branch step along `Under`, back to the iteration step. -/
theorem selectNext_specLoop_branch : selectNext specLoopFlow "step-2" "Under" = some "step-1" := rfl

/-- Execution of the start step appends the prompt and the assistant answer. -/
theorem execStep_specLoop_start (tok : String → Nat) (complete : List Message → String)
    (log : List Message) :
    execStep tok complete loopStepStart log =
      ((log ++ [⟨"user", "Start"⟩])
        ++ [⟨"assistant", complete (log ++ [⟨"user", "Start"⟩])⟩], "default") := rfl

/-- Execution of the iteration step appends the prompt and the assistant answer. -/
theorem execStep_specLoop_iter (tok : String → Nat) (complete : List Message → String)
    (log : List Message) :
    execStep tok complete loopStepIter log =
      ((log ++ [⟨"user", "Iteration"⟩])
        ++ [⟨"assistant", complete (log ++ [⟨"user", "Iteration"⟩])⟩], "default") := rfl

/-- When the token count never exceeds the threshold, the branch step appends
nothing and selects `Under`. -/
theorem execStep_specLoop_branch (tok : String → Nat) (complete : List Message → String)
    (log : List Message) (htok : ∀ s, tok s ≤ 100000) :
    execStep tok complete loopStepBranch log = (log, "Under") := by
  have hnot : ¬ (100000 < tok (lastContent log)) := Nat.not_lt.mpr (htok _)
  simp [execStep, loopStepBranch, hnot]

/-- Helper for C1: on the cyclic spec loop flow with an unsatisfiable branch
threshold, the run always ends in the loop-guard abort, with at most two
messages appended per executed step. -/
theorem c1_run_invariant (tok : String → Nat) (complete : List Message → String)
    (htok : ∀ s, tok s ≤ 100000) (limit : Nat) :
    ∀ (n : Nat) (cur : String) (log : List Message) (steps : Nat),
      limit - steps = n → steps ≤ limit →
      (cur = "start" ∨ cur = "step-1" ∨ cur = "step-2") →
      log.length ≤ 2 * steps →
      (runFrom tok complete specLoopFlow limit cur log steps).status
          = RunStatus.aborted "loop limit exceeded" ∧
      (runFrom tok complete specLoopFlow limit cur log steps).log.length ≤ 2 * limit := by
  intro n
  induction n with
  | zero =>
    intro cur log steps hn hle hcur hlen
    have hge : limit ≤ steps := by omega
    rw [runFrom, dif_pos hge]
    constructor
    · rfl
    · show log.length ≤ 2 * limit
      omega
  | succ n ih =>
    intro cur log steps hn hle hcur hlen
    have hlt : steps < limit := by omega
    rw [runFrom, dif_neg (by omega)]
    rcases hcur with rfl | rfl | rfl
    · simp only [findStep_specLoop_start, execStep_specLoop_start, selectNext_specLoop_start]
      exact ih "step-1" _ (steps + 1) (by omega) (by omega) (Or.inr (Or.inl rfl))
        (by simp only [List.length_append, List.length_cons, List.length_nil]; omega)
    · simp only [findStep_specLoop_iter, execStep_specLoop_iter, selectNext_specLoop_iter]
      exact ih "step-2" _ (steps + 1) (by omega) (by omega) (Or.inr (Or.inr rfl))
        (by simp only [List.length_append, List.length_cons, List.length_nil]; omega)
    · simp only [findStep_specLoop_branch, execStep_specLoop_branch tok complete log htok,
        selectNext_specLoop_branch]
      exact ih "step-1" _ (steps + 1) (by omega) (by omega) (Or.inr (Or.inl rfl)) (by omega)

/-- Helper for C1: the scheduler's step counter never decreases over a run. -/
theorem runFrom_steps_mono (tok : String → Nat) (complete : List Message → String)
    (flow : AppFlow) (limit : Nat) :
    ∀ (n : Nat) (cur : String) (log : List Message) (steps : Nat),
      limit - steps = n →
      steps ≤ (runFrom tok complete flow limit cur log steps).steps := by
  intro n
  induction n with
  | zero =>
    intro cur log steps hn
    have hge : limit ≤ steps := by omega
    rw [runFrom, dif_pos hge]
  | succ n ih =>
    intro cur log steps hn
    have hlt : steps < limit := by omega
    rw [runFrom, dif_neg (by omega)]
    cases hf : findStep flow cur with
    | none => simp
    | some step =>
      cases hs : selectNext flow cur (execStep tok complete step log).2 with
      | none => simp [hs]
      | some nxt =>
        have := ih nxt (execStep tok complete step log).1 (steps + 1) (by omega)
        simp only [hs]
        omega

/-- C1: on the cyclic 3-step flow (`start → iteration → branch`, with the
branch output looping back) whose threshold is never satisfied, the scheduler's
steps-executed counter is monotonically increasing, the run terminates in
`Aborted("loop limit exceeded")` via the loop guard, and the total number of
messages in the log stays under 50 (for any guard ceiling up to 24). -/
theorem c1_loop_guard (tok : String → Nat) (complete : List Message → String) (limit : Nat)
    (htok : ∀ s, tok s ≤ 100000) (hlim : limit ≤ 24) :
    (∀ (flow : AppFlow) (cur : String) (log : List Message) (steps : Nat),
        steps ≤ (runFrom tok complete flow limit cur log steps).steps) ∧
    (runFrom tok complete specLoopFlow limit "start" [] 0).status
        = RunStatus.aborted "loop limit exceeded" ∧
    (runFrom tok complete specLoopFlow limit "start" [] 0).log.length < 50 := by
  have hinv := c1_run_invariant tok complete htok limit (limit - 0) "start" [] 0 rfl
    (Nat.zero_le _) (Or.inl rfl) (by simp)
  refine ⟨fun flow cur log steps =>
    runFrom_steps_mono tok complete flow limit (limit - steps) cur log steps rfl, hinv.1, ?_⟩
  have := hinv.2
  omega

/-- Witness for C1 at a concrete token counter, completion collaborator and
ceiling. -/
theorem c1_loop_guard_witness :
    (∀ (flow : AppFlow) (cur : String) (log : List Message) (steps : Nat),
        steps ≤ (runFrom (fun _ => 0) (fun _ => "reply") flow 20 cur log steps).steps) ∧
    (runFrom (fun _ => 0) (fun _ => "reply") specLoopFlow 20 "start" [] 0).status
        = RunStatus.aborted "loop limit exceeded" ∧
    (runFrom (fun _ => 0) (fun _ => "reply") specLoopFlow 20 "start" [] 0).log.length < 50 :=
  c1_loop_guard (fun _ => 0) (fun _ => "reply") 20 (fun _ => Nat.zero_le _) (by omega)

/-- The rendered successful datetime tool message contains the tool-response
opening the backend looks for. -/
theorem contains_resp_render (dt : String) :
    containsStr toolRespGetDatetime
      (renderToolResult ⟨"get_datetime", true, get_datetime_payload dt⟩) = true := by
  have hshape : renderToolResult ⟨"get_datetime", true, get_datetime_payload dt⟩
      = ("<dma:tool_response name=\"" ++ "get_datetime" ++ "\">\n")
        ++ (("<content>\n" ++ get_datetime_payload dt) ++ "\n</content>\n")
        ++ "</dma:tool_response>" := rfl
  rw [hshape]
  apply containsStr_append_right
  apply containsStr_append_right
  decide

/-- The datetime tool payload contains the `"text": "` fragment the backend
looks for, for every datetime string. -/
theorem contains_textfield_payload (dt : String) :
    containsStr textFieldMarker (get_datetime_payload dt) = true := by
  have hp : get_datetime_payload dt
      = ("\x7b\"text\": " ++ "\"") ++ (jsonEscape dt.data ++ ("\"" ++ "\x7d")) := by
    simp only [get_datetime_payload, jsonStr, String.append_assoc]
  rw [hp]
  apply containsStr_append_right
  decide

/-- The rendered successful datetime tool message contains the `"text": "`
fragment. -/
theorem contains_textfield_render (dt : String) :
    containsStr textFieldMarker
      (renderToolResult ⟨"get_datetime", true, get_datetime_payload dt⟩) = true := by
  have hshape : renderToolResult ⟨"get_datetime", true, get_datetime_payload dt⟩
      = ("<dma:tool_response name=\"" ++ "get_datetime" ++ "\">\n")
        ++ (("<content>\n" ++ get_datetime_payload dt) ++ "\n</content>\n")
        ++ "</dma:tool_response>" := rfl
  rw [hshape]
  apply containsStr_append_right
  apply containsStr_append_left
  apply containsStr_append_right
  apply containsStr_append_left
  exact contains_textfield_payload dt

/-- The mock backend answers the date-and-time question with the tool call. -/
theorem mockComplete_ask : mockComplete [userAskMsg] = getDatetimeCallText := by decide

/-- The mock backend answers a successful datetime tool response with the final
answer, for every datetime string. -/
theorem mockBranch_toolSuccess (dt : String) :
    mockBranch ⟨"tool", renderToolResult ⟨"get_datetime", true, get_datetime_payload dt⟩⟩
      = some finalAnswerText := by
  simp [mockBranch, contains_resp_render, contains_textfield_render]

/-- The mock completion on the three-message log ending in the successful tool
response is the final answer. -/
theorem mockComplete_tool (dt : String) :
    mockComplete [userAskMsg, ⟨"assistant", getDatetimeCallText⟩,
        ⟨"tool", renderToolResult ⟨"get_datetime", true, get_datetime_payload dt⟩⟩]
      = finalAnswerText := by
  have hlast : ([userAskMsg, ⟨"assistant", getDatetimeCallText⟩,
      ⟨"tool", renderToolResult ⟨"get_datetime", true, get_datetime_payload dt⟩⟩]
      : List Message).getLast?
      = some ⟨"tool", renderToolResult ⟨"get_datetime", true, get_datetime_payload dt⟩⟩ := rfl
  simp [mockComplete, mockResponseCore, hlast, mockBranch_toolSuccess]

/-- The interpreter dispatches the datetime tool call and wraps its payload. -/
theorem interpret_datetime_call (dt : String) :
    interpret (dispatchDateTime dt) cfgAllowAll getDatetimeCallText
      = (.result ⟨"get_datetime", true, get_datetime_payload dt⟩, 1) := by
  have hfind : findFirstToolCall getDatetimeCallText = some "get_datetime" := by decide
  have hd : dispatchDateTime dt "get_datetime" = .ok (get_datetime_payload dt) := rfl
  simp [interpret, hfind, isEnabled, cfgAllowAll, hd]

/-- The final answer contains no tool-invocation marker, so the interpreter
reports `NoToolCall`. -/
theorem interpret_final_answer (dt : String) :
    interpret (dispatchDateTime dt) cfgAllowAll finalAnswerText = (.noToolCall, 0) := by
  have h : findFirstToolCall finalAnswerText = none := by decide
  simp [interpret, h]

/-- C4: starting from the user message asking for the date and time, with
`get_datetime` enabled, the turn driver produces exactly the sequence
user question → assistant tool call → tool message (containing `"text": "`) →
final assistant answer with no further tool call. -/
theorem c4_tool_success_scenario (dt : String) (fuel : Nat) (hf : 2 ≤ fuel) :
    turnDriver mockComplete (dispatchDateTime dt) cfgAllowAll fuel [userAskMsg] =
      [userAskMsg, ⟨"assistant", getDatetimeCallText⟩, toolSuccessMsg dt,
       ⟨"assistant", finalAnswerText⟩] ∧
    containsStr textFieldMarker (toolSuccessMsg dt).content = true ∧
    findFirstToolCall finalAnswerText = none := by
  obtain ⟨n, rfl⟩ : ∃ n, fuel = n + 1 + 1 := ⟨fuel - 2, by omega⟩
  refine ⟨?_, contains_textfield_render dt, by decide⟩
  simp only [turnDriver, mockComplete_ask, interpret_datetime_call,
    List.cons_append, List.nil_append, mockComplete_tool, interpret_final_answer,
    toolSuccessMsg]

/-- Witness for C4 at a concrete datetime string and iteration bound. -/
theorem c4_tool_success_scenario_witness :
    turnDriver mockComplete (dispatchDateTime "2025-01-01 12:00:00") cfgAllowAll 2 [userAskMsg] =
      [userAskMsg, ⟨"assistant", getDatetimeCallText⟩, toolSuccessMsg "2025-01-01 12:00:00",
       ⟨"assistant", finalAnswerText⟩] ∧
    containsStr textFieldMarker (toolSuccessMsg "2025-01-01 12:00:00").content = true ∧
    findFirstToolCall finalAnswerText = none :=
  c4_tool_success_scenario "2025-01-01 12:00:00" 2 (by omega)
